import Mathlib

/-!
Shallow embedding of the libsvgdom core (attribute model, node tree,
parse/resolve pipeline) for checking the natural-language specification
against the source.

Machine floats (`f64`) are modelled as `ℚ`: every numeric literal appearing
in the embedded code (0.0, 1.0, 4.0) is exactly representable, and the only
operation performed on them is structural equality.
-/

namespace Svgdom

/-- Node types, from the spec's data model (`NodeType` in the missing
`dom` module; the variants are fixed by spec §3). -/
inductive NodeType
  | Root
  | Element
  | Text
  | Comment
  | Cdata
  | Declaration
deriving DecidableEq, Repr

/-- Modelled from the spec: `ElementId` is re-exported from the external
`svgparser` crate (src/lib.rs line 62). Only the element ids referenced by
the sources under `src/` are embedded; the membership facts proved below do
not depend on the enum being wider. -/
inductive ElementId
  | Svg
  | Style
  | Text
  | Tspan
  | Tref
  | Use
  | Mask
  | ClipPath
  | Marker
  | Rect
  | G
  | LinearGradient
deriving DecidableEq, Repr

/-- Modelled from the spec: `AttributeId` is re-exported from the external
`svgparser` crate (src/lib.rs line 61). Embedded are the 59 ids of
`PRESENTATION_ATTRIBUTES` (src/attribute.rs lines 23-83) plus every other
attribute id referenced by the sources under `src/`. -/
inductive AttributeId
  | AlignmentBaseline
  | BaselineShift
  | ClipPath
  | ClipRule
  | Color
  | ColorInterpolation
  | ColorInterpolationFilters
  | ColorProfile
  | ColorRendering
  | Cursor
  | Direction
  | Display
  | DominantBaseline
  | EnableBackground
  | Fill
  | FillOpacity
  | FillRule
  | Filter
  | FloodColor
  | FloodOpacity
  | FontFamily
  | FontSize
  | FontSizeAdjust
  | FontStretch
  | FontStyle
  | FontVariant
  | FontWeight
  | GlyphOrientationHorizontal
  | GlyphOrientationVertical
  | ImageRendering
  | Kerning
  | LetterSpacing
  | LightingColor
  | Marker
  | MarkerEnd
  | MarkerMid
  | MarkerStart
  | Mask
  | Opacity
  | Overflow
  | PointerEvents
  | ShapeRendering
  | StopColor
  | StopOpacity
  | Stroke
  | StrokeDasharray
  | StrokeDashoffset
  | StrokeLinecap
  | StrokeLinejoin
  | StrokeMiterlimit
  | StrokeOpacity
  | StrokeWidth
  | TextAnchor
  | TextDecoration
  | TextRendering
  | UnicodeBidi
  | Visibility
  | WordSpacing
  | WritingMode
  | Id
  | Style
  | Class
  | D
  | Transform
  | GradientTransform
  | PatternTransform
  | Type
  | XlinkHref
deriving DecidableEq, Repr

/-- Modelled from the spec: `ValueId` (predefined keyword values) is
re-exported from the external `svgparser` crate (src/lib.rs line 64).
Embedded are the keywords referenced by the sources under `src/`. -/
inductive ValueId
  | Auto
  | Baseline
  | None
  | Nonzero
  | SRGB
  | LinearRGB
  | Ltr
  | Inline
  | Accumulate
  | Medium
  | Normal
  | Butt
  | Miter
  | Start
  | Visible
  | LrTb
  | Hidden
deriving DecidableEq, Repr

/-- Modelled from the spec: `LengthUnit` is re-exported from the external
`svgparser` crate (src/types/mod.rs line 11). -/
inductive LengthUnit
  | None
  | Em
  | Ex
  | Px
  | In
  | Cm
  | Mm
  | Pt
  | Pc
  | Percent
deriving DecidableEq, Repr

/-- Modelled from the spec: `Length` (src/types/length.rs is not among the
provided sources): a number together with a unit, `Length::new(num, unit)`. -/
structure Length where
  num : ℚ
  unit : LengthUnit
deriving DecidableEq, Repr

/-- Modelled from the spec: `Color` (src/types/color.rs is not among the
provided sources): an RGB triple of bytes, `Color::new(red, green, blue)`. -/
structure Color where
  red : Nat
  green : Nat
  blue : Nat
deriving DecidableEq, Repr

/-- Modelled from the spec: `Transform` (src/types/transform.rs is not among
the provided sources): a 2x3 affine matrix. Value-parsing internals are an
external collaborator (spec §1); only the identity check is used by the
embedded code. -/
structure Transform where
  a : ℚ
  b : ℚ
  c : ℚ
  d : ℚ
  e : ℚ
  f : ℚ
deriving DecidableEq, Repr

/-- Modelled from the spec: `Transform::is_default` — whether the transform
reduces to the identity (spec §4.3 Phase 1: a transform attribute is
"dropped entirely if it reduces to the identity transform"). -/
def Transform.is_default (t : Transform) : Bool :=
  t = ⟨1, 0, 0, 1, 0, 0⟩

/-- Modelled from the spec: `Path` (src/types/path.rs internals are an
external collaborator, spec §1); kept abstract as its raw text, since no
embedded claim inspects path segments. -/
structure Path where
  raw : String
deriving DecidableEq, Repr

/-- Value of an SVG attribute (src/attribute.rs lines 93-104). The `Link`
variant holds a node handle; in this arena embedding a handle is the node's
index. The source's `String` variant is named `Str` here because `String`
would shadow the builtin type. -/
inductive AttributeValue
  | Color (c : Svgdom.Color)
  | Length (l : Svgdom.Length)
  | LengthList (l : List Svgdom.Length)
  | Link (n : Nat)
  | Number (n : ℚ)
  | NumberList (l : List ℚ)
  | Path (p : Svgdom.Path)
  | PredefValue (v : ValueId)
  | Str (s : String)
  | Transform (t : Svgdom.Transform)
deriving DecidableEq, Repr

/-- An SVG attribute (src/attribute.rs lines 277-290). -/
structure Attribute where
  id : AttributeId
  value : AttributeValue
  visible : Bool
deriving DecidableEq, Repr

/-- The fixed list of presentation-property attribute ids
(src/attribute.rs lines 23-83), in source order. -/
def PRESENTATION_ATTRIBUTES : List AttributeId := [
  AttributeId.AlignmentBaseline,
  AttributeId.BaselineShift,
  AttributeId.ClipPath,
  AttributeId.ClipRule,
  AttributeId.Color,
  AttributeId.ColorInterpolation,
  AttributeId.ColorInterpolationFilters,
  AttributeId.ColorProfile,
  AttributeId.ColorRendering,
  AttributeId.Cursor,
  AttributeId.Direction,
  AttributeId.Display,
  AttributeId.DominantBaseline,
  AttributeId.EnableBackground,
  AttributeId.Fill,
  AttributeId.FillOpacity,
  AttributeId.FillRule,
  AttributeId.Filter,
  AttributeId.FloodColor,
  AttributeId.FloodOpacity,
  AttributeId.FontFamily,
  AttributeId.FontSize,
  AttributeId.FontSizeAdjust,
  AttributeId.FontStretch,
  AttributeId.FontStyle,
  AttributeId.FontVariant,
  AttributeId.FontWeight,
  AttributeId.GlyphOrientationHorizontal,
  AttributeId.GlyphOrientationVertical,
  AttributeId.ImageRendering,
  AttributeId.Kerning,
  AttributeId.LetterSpacing,
  AttributeId.LightingColor,
  AttributeId.Marker,
  AttributeId.MarkerEnd,
  AttributeId.MarkerMid,
  AttributeId.MarkerStart,
  AttributeId.Mask,
  AttributeId.Opacity,
  AttributeId.Overflow,
  AttributeId.PointerEvents,
  AttributeId.ShapeRendering,
  AttributeId.StopColor,
  AttributeId.StopOpacity,
  AttributeId.Stroke,
  AttributeId.StrokeDasharray,
  AttributeId.StrokeDashoffset,
  AttributeId.StrokeLinecap,
  AttributeId.StrokeLinejoin,
  AttributeId.StrokeMiterlimit,
  AttributeId.StrokeOpacity,
  AttributeId.StrokeWidth,
  AttributeId.TextAnchor,
  AttributeId.TextDecoration,
  AttributeId.TextRendering,
  AttributeId.UnicodeBidi,
  AttributeId.Visibility,
  AttributeId.WordSpacing,
  AttributeId.WritingMode
]

/-- Source: `Attribute::is_presentation` (src/attribute.rs lines 322-324):
`PRESENTATION_ATTRIBUTES.iter().any(|aid| *aid == self.id)`. -/
def Attribute.is_presentation (a : Attribute) : Bool :=
  PRESENTATION_ATTRIBUTES.any (fun aid => aid == a.id)

/-- Source: `AttributeValue::default_value` (src/attribute.rs lines 209-272): the
SVG-spec initial value lookup table. Rust `From` conversions are applied
inline: `ValueId` becomes `PredefValue`, `f64` becomes `Number`,
`(f64, LengthUnit)` becomes `Length`, `&str` becomes `Str`. -/
def AttributeValue.default_value (id : AttributeId) : Option AttributeValue :=
  match id with
  | AttributeId.AlignmentBaseline => some (AttributeValue.PredefValue ValueId.Auto)
  | AttributeId.BaselineShift => some (AttributeValue.PredefValue ValueId.Baseline)
  | AttributeId.ClipPath => some (AttributeValue.PredefValue ValueId.None)
  | AttributeId.ClipRule => some (AttributeValue.PredefValue ValueId.Nonzero)
  | AttributeId.ColorInterpolation => some (AttributeValue.PredefValue ValueId.SRGB)
  | AttributeId.ColorInterpolationFilters => some (AttributeValue.PredefValue ValueId.LinearRGB)
  | AttributeId.ColorProfile => some (AttributeValue.PredefValue ValueId.Auto)
  | AttributeId.ColorRendering => some (AttributeValue.PredefValue ValueId.Auto)
  | AttributeId.Cursor => some (AttributeValue.PredefValue ValueId.Auto)
  | AttributeId.Direction => some (AttributeValue.PredefValue ValueId.Ltr)
  | AttributeId.Display => some (AttributeValue.PredefValue ValueId.Inline)
  | AttributeId.DominantBaseline => some (AttributeValue.PredefValue ValueId.Auto)
  | AttributeId.EnableBackground => some (AttributeValue.PredefValue ValueId.Accumulate)
  | AttributeId.Fill => some (AttributeValue.Color ⟨0, 0, 0⟩)
  | AttributeId.FillOpacity => some (AttributeValue.Number 1)
  | AttributeId.FillRule => some (AttributeValue.PredefValue ValueId.Nonzero)
  | AttributeId.Filter => some (AttributeValue.PredefValue ValueId.None)
  | AttributeId.FloodColor => some (AttributeValue.Color ⟨0, 0, 0⟩)
  | AttributeId.FloodOpacity => some (AttributeValue.Number 1)
  | AttributeId.FontSizeAdjust => some (AttributeValue.PredefValue ValueId.None)
  | AttributeId.FontSize => some (AttributeValue.PredefValue ValueId.Medium)
  | AttributeId.FontStretch => some (AttributeValue.PredefValue ValueId.Normal)
  | AttributeId.FontStyle => some (AttributeValue.PredefValue ValueId.Normal)
  | AttributeId.FontVariant => some (AttributeValue.PredefValue ValueId.Normal)
  | AttributeId.FontWeight => some (AttributeValue.PredefValue ValueId.Normal)
  | AttributeId.GlyphOrientationHorizontal => some (AttributeValue.Str "0deg")
  | AttributeId.GlyphOrientationVertical => some (AttributeValue.PredefValue ValueId.Auto)
  | AttributeId.ImageRendering => some (AttributeValue.PredefValue ValueId.Auto)
  | AttributeId.Kerning => some (AttributeValue.PredefValue ValueId.Auto)
  | AttributeId.LetterSpacing => some (AttributeValue.PredefValue ValueId.Normal)
  | AttributeId.LightingColor => some (AttributeValue.Color ⟨255, 255, 255⟩)
  | AttributeId.Marker => some (AttributeValue.PredefValue ValueId.None)
  | AttributeId.MarkerStart => some (AttributeValue.PredefValue ValueId.None)
  | AttributeId.MarkerMid => some (AttributeValue.PredefValue ValueId.None)
  | AttributeId.MarkerEnd => some (AttributeValue.PredefValue ValueId.None)
  | AttributeId.Mask => some (AttributeValue.PredefValue ValueId.None)
  | AttributeId.Opacity => some (AttributeValue.Number 1)
  | AttributeId.ShapeRendering => some (AttributeValue.PredefValue ValueId.Auto)
  | AttributeId.StopColor => some (AttributeValue.Color ⟨0, 0, 0⟩)
  | AttributeId.StopOpacity => some (AttributeValue.Number 1)
  | AttributeId.Stroke => some (AttributeValue.PredefValue ValueId.None)
  | AttributeId.StrokeDasharray => some (AttributeValue.PredefValue ValueId.None)
  | AttributeId.StrokeDashoffset => some (AttributeValue.Length ⟨0, LengthUnit.None⟩)
  | AttributeId.StrokeLinecap => some (AttributeValue.PredefValue ValueId.Butt)
  | AttributeId.StrokeLinejoin => some (AttributeValue.PredefValue ValueId.Miter)
  | AttributeId.StrokeMiterlimit => some (AttributeValue.Length ⟨4, LengthUnit.None⟩)
  | AttributeId.StrokeOpacity => some (AttributeValue.Number 1)
  | AttributeId.StrokeWidth => some (AttributeValue.Length ⟨1, LengthUnit.None⟩)
  | AttributeId.TextAnchor => some (AttributeValue.PredefValue ValueId.Start)
  | AttributeId.TextDecoration => some (AttributeValue.PredefValue ValueId.None)
  | AttributeId.TextRendering => some (AttributeValue.PredefValue ValueId.Auto)
  | AttributeId.UnicodeBidi => some (AttributeValue.PredefValue ValueId.Normal)
  | AttributeId.Visibility => some (AttributeValue.PredefValue ValueId.Visible)
  | AttributeId.WordSpacing => some (AttributeValue.PredefValue ValueId.Normal)
  | AttributeId.WritingMode => some (AttributeValue.PredefValue ValueId.LrTb)
  | _ => none

/-- Source: `Attribute::check_is_default` (src/attribute.rs lines 313-318):
structural equality with the default value; `false` when no default. -/
def Attribute.check_is_default (a : Attribute) : Bool :=
  match AttributeValue.default_value a.id with
  | some v => a.value == v
  | none => false

/-- Tag names: a known SVG element id or a foreign string
(`Name::Id | Name::Name`, spec §3; src/dom/iterators.rs line 23 matches on
`Name::Id`). -/
inductive TagName
  | Id (eid : ElementId)
  | Name (s : String)
deriving DecidableEq, Repr

/-- Node payload (`NodeData`, spec §3; src/dom/document.rs lines 200-213).
The Rust tree is an `Rc`-linked structure with a `first_child`/`next_sibling`
strong chain; this embedding is an arena indexed by `Nat` handles, in which
the chain is represented as the in-order `children` list and the weak
`parent` back-reference as an optional index. Non-SVG ("foreign") attributes
carry a plain string name (spec §3: `Known(enum) | Other(string)`) and are
kept in a separate list, since `Attribute` of src/attribute.rs only holds
known ids. -/
structure NodeData where
  parent : Option Nat
  children : List Nat
  node_type : NodeType
  tag_name : Option TagName
  id : String
  attributes : List Attribute
  otherAttributes : List (String × String)
  text : String
deriving DecidableEq, Repr

/-- A document: the arena of nodes; index 0 is the root node
(`Document`, src/dom/document.rs lines 38-49). -/
structure Doc where
  nodes : List NodeData
deriving DecidableEq, Repr

/-- A fresh detached node payload. -/
def NodeData.mk0 (nt : NodeType) (tn : Option TagName) (text : String) : NodeData :=
  { parent := none, children := [], node_type := nt, tag_name := tn,
    id := "", attributes := [], otherAttributes := [], text := text }

/-- Source: `Document::new` (src/dom/document.rs lines 45-49): a document holding
only the root node. -/
def Doc.new : Doc :=
  ⟨[NodeData.mk0 NodeType.Root none ""]⟩

def Doc.getNode (doc : Doc) (i : Nat) : Option NodeData :=
  doc.nodes.get? i

def Doc.setNode (doc : Doc) (i : Nat) (nd : NodeData) : Doc :=
  ⟨doc.nodes.set i nd⟩

/-- Update one node in place through a function; out-of-range handles are
no-ops (an arena-embedding artifact; the embedded pipeline only produces
in-range handles). -/
def Doc.modifyNode (doc : Doc) (i : Nat) (f : NodeData → NodeData) : Doc :=
  match doc.getNode i with
  | some nd => doc.setNode i (f nd)
  | none => doc

def Doc.node_type (doc : Doc) (i : Nat) : Option NodeType :=
  (doc.getNode i).map (·.node_type)

/-- Source: `Node::tag_id` — the known element id of an element's tag, if any
(modelled from the spec §3; src/dom/node.rs is not among the provided
sources). -/
def Doc.tag_id (doc : Doc) (i : Nat) : Option ElementId :=
  match doc.getNode i with
  | some nd =>
    match nd.tag_name with
    | some (TagName.Id eid) => some eid
    | _ => none
  | none => none

/-- Source: `Node::is_tag_name(eid)` (modelled from the spec §3). -/
def Doc.is_tag_name (doc : Doc) (i : Nat) (eid : ElementId) : Bool :=
  doc.tag_id i == some eid

/-- Source: `Node::is_svg_element` — an element whose tag resolved to a known SVG id
(modelled from the spec §3: known vocabulary vs foreign string). -/
def Doc.is_svg_element (doc : Doc) (i : Nat) : Bool :=
  match doc.getNode i with
  | some nd => nd.node_type == NodeType.Element
      && (match nd.tag_name with
          | some (TagName.Id _) => true
          | _ => false)
  | none => false

def Doc.childrenOf (doc : Doc) (i : Nat) : List Nat :=
  match doc.getNode i with
  | some nd => nd.children
  | none => []

/-- Source: `Node::has_children` (modelled from the spec §3). -/
def Doc.has_children (doc : Doc) (i : Nat) : Bool :=
  !(doc.childrenOf i).isEmpty

/-- Source: `Node::append` (spec §4.1): detach the child from any previous parent,
then make it the parent's new last child, updating the weak `parent` link. -/
def Doc.append (doc : Doc) (parent child : Nat) : Doc :=
  let doc1 :=
    match (doc.getNode child).bind (·.parent) with
    | some oldp => doc.modifyNode oldp
        (fun nd => { nd with children := nd.children.filter (fun c => c ≠ child) })
    | none => doc
  let doc2 := doc1.modifyNode parent
    (fun nd => { nd with children := nd.children ++ [child] })
  doc2.modifyNode child (fun nd => { nd with parent := some parent })

/-- Allocate a node in the arena, returning its handle. -/
def Doc.push (doc : Doc) (nd : NodeData) : Doc × Nat :=
  (⟨doc.nodes ++ [nd]⟩, doc.nodes.length)

/-- Look up an attribute by id in a node's attribute list
(`Attributes::get`, modelled from the spec §3: ids unique per node). -/
def findAttr : List Attribute → AttributeId → Option Attribute
  | [], _ => none
  | a :: rest, aid => if a.id = aid then some a else findAttr rest aid

/-- Insert an attribute: replace the value in place when the id is already
present, append otherwise (modelled from the spec §3: "insertion of an
attribute with an id already present replaces the value in place rather
than appending a duplicate"). -/
def insertAttr : List Attribute → AttributeId → AttributeValue → List Attribute
  | [], aid, v => [⟨aid, v, true⟩]
  | a :: rest, aid, v =>
    if a.id = aid then ⟨aid, v, true⟩ :: rest
    else a :: insertAttr rest aid v

/-- Source: `Node::set_attribute((id, value))` (modelled from the spec §3). -/
def Doc.set_attribute (doc : Doc) (i : Nat) (aid : AttributeId) (v : AttributeValue) : Doc :=
  doc.modifyNode i (fun nd => { nd with attributes := insertAttr nd.attributes aid v })

/-- The value of a node's attribute (`Attributes::get_value`). -/
def Doc.get_attribute_value (doc : Doc) (i : Nat) (aid : AttributeId) : Option AttributeValue :=
  match doc.getNode i with
  | some nd => (findAttr nd.attributes aid).map (·.value)
  | none => none

/-- Source: `Parents::next` folded into an "exists matching strict ancestor" test
(src/dom/iterators.rs lines 188-207): walk weak `parent` links starting at
the node's parent, stopping before the `Root` node; `fuel` bounds the walk,
`doc.nodes.length` suffices on the acyclic trees the pipeline builds. -/
def Doc.parentsAny (doc : Doc) (p : Nat → Bool) : Nat → Nat → Bool
  | 0, _ => false
  | fuel + 1, i =>
    match (doc.getNode i).bind (·.parent) with
    | none => false
    | some j =>
      if doc.node_type j == some NodeType.Root then false
      else p j || doc.parentsAny p fuel j

/-- Parse errors (`ErrorKind`, spec §7; src/error.rs is not among the
provided sources; the constructors and the carried iri strings follow the
uses in src/parser/parser.rs). Source positions carried by the Rust errors
come from the external tokenizer streams and are not modelled. `Panic`
models a Rust panic path (`unwrap` on `None`, empty tag name), which the
spec classifies as a programmer-error abort (§7): it is an outcome, never
recovered from. -/
inductive ParseError
  | EmptyDocument
  | NoSvgElement
  | UnsupportedEntity
  | UnsupportedPaintFallback (iri : String)
  | BrokenFuncIri (iri : String)
  | InvalidValue
  | Panic
deriving DecidableEq, Repr

/-- Modelled from the spec: `ParseOptions` (src/parse_options.rs is not
among the provided sources); the fields are the parse options of spec §6. -/
structure ParseOptions where
  parse_unknown_elements : Bool
  parse_unknown_attributes : Bool
  parse_comments : Bool
  parse_declarations : Bool
  parse_px_unit : Bool
  skip_invalid_attributes : Bool
  skip_invalid_css : Bool
  skip_paint_fallback : Bool
deriving DecidableEq, Repr

/-- Modelled from the spec: default `ParseOptions`. Spec §7: "default
behavior favors strict correctness", so every `skip_*` recovery option is
off; the `parse_*` content options are on (spec §4.3 gates comments and
declarations behind an option, and C6/C1 sources describe the strict path
as the default). -/
def ParseOptions.default : ParseOptions :=
  { parse_unknown_elements := true
    parse_unknown_attributes := true
    parse_comments := true
    parse_declarations := true
    parse_px_unit := true
    skip_invalid_attributes := false
    skip_invalid_css := false
    skip_paint_fallback := false }

/-- Source: `PaintFallback` from the external `svgparser` crate: the alternate value
supplied with a FuncIRI paint reference (spec glossary). -/
inductive PaintFallback
  | PredefValue (v : ValueId)
  | Color (c : Svgdom.Color)
deriving DecidableEq, Repr

/-- Source: `svgparser::AttributeValue` — the outcome of the external typed value
parser (`ParserAttributeValue` in src/parser/parser.rs). List payloads are
streams of fallible items, mirroring the `Result`-yielding iterators the
Rust code consumes. -/
inductive PAttributeValue
  | Str (s : String)
  | IRI (link : String)
  | FuncIRI (link : String)
  | FuncIRIWithFallback (link : String) (fallback : PaintFallback)
  | Number (n : ℚ)
  | NumberList (l : List (Except ParseError ℚ))
  | Length (num : ℚ) (unit : LengthUnit)
  | LengthList (l : List (Except ParseError (ℚ × LengthUnit)))
  | Color (c : Svgdom.Color)
  | PredefValue (v : ValueId)
  | EntityRef (name : String)

/-- One deferred link entry (`LinkData`, src/parser/parser.rs lines 51-56). -/
structure LinkData where
  attr_id : AttributeId
  iri : String
  fallback : Option PaintFallback
  node : Nat
deriving Repr

/-- The deferred-links state (`Links`, src/parser/parser.rs lines 58-65).
The Rust `elems_with_id` is a `HashMap`; it is embedded as an association
list with insert-replaces-existing-key semantics. -/
structure Links where
  list : List LinkData
  elems_with_id : List (String × Nat)
deriving Repr

/-- Source: `Links::append` (src/parser/parser.rs lines 67-82). -/
def Links.append (l : Links) (id : AttributeId) (iri : String)
    (fallback : Option PaintFallback) (node : Nat) : Links :=
  { l with list := l.list ++ [{ attr_id := id, iri := iri, fallback := fallback, node := node }] }

/-- Source: `HashMap::insert`: replace the binding when the key exists, append
otherwise. -/
def insertAssoc : List (String × Nat) → String → Nat → List (String × Nat)
  | [], k, v => [(k, v)]
  | (k2, v2) :: rest, k, v =>
    if k2 = k then (k, v) :: rest else (k2, v2) :: insertAssoc rest k v

/-- Source: `HashMap::get` on the association list. -/
def lookupAssoc : List (String × Nat) → String → Option Nat
  | [], _ => none
  | (k2, v2) :: rest, k => if k2 = k then some v2 else lookupAssoc rest k

/-- Entity table (`Entities`, src/parser/parser.rs line 84): name to
replacement-text span. -/
def insertEntity : List (String × String) → String → String → List (String × String)
  | [], k, v => [(k, v)]
  | (k2, v2) :: rest, k, v =>
    if k2 = k then (k, v) :: rest else (k2, v2) :: insertEntity rest k v

def lookupEntity : List (String × String) → String → Option String
  | [], _ => none
  | (k2, v2) :: rest, k => if k2 = k then some v2 else lookupEntity rest k

/-- The deferred data built during the token pass (`PostData`,
src/parser/parser.rs lines 86-95). `class_attrs` and `style_attrs` keep
(node handle, span). -/
structure PostData where
  css_list : List String
  links : Links
  entitis : List (String × String)
  class_attrs : List (Nat × String)
  style_attrs : List (Nat × String)
deriving Repr

/-- Style-attribute declarations produced by the external
`style::Tokenizer` (spec §4.3 Phase 4). -/
inductive StyleToken
  | XmlAttribute (name : String) (value : String)
  | SvgAttribute (id : AttributeId) (value : String)
  | EntityRef (name : String)

/-- The external collaborators of spec §1/§6, passed to the embedded
pipeline as explicit functions: the typed value parser
(`svgparser::AttributeValue::from_span`), the transform and path value
parsers, the style-declaration tokenizer, and the entity-reference scanner
used on foreign attributes. Their internals are outside the specified core;
theorems about concrete inputs instantiate them with concrete functions. -/
structure Externals where
  fromSpan : ElementId → AttributeId → String → Except ParseError PAttributeValue
  transformFromSpan : String → Except ParseError Transform
  pathFromSpan : String → Except ParseError Path
  styleTokens : String → List (Except ParseError StyleToken)
  consumeEntityRef : String → Option String

/-- Source: `prepare_length_unit` (src/parser/parser.rs lines 506-513). -/
def prepare_length_unit (unit : LengthUnit) (opt : ParseOptions) : LengthUnit :=
  if !opt.parse_px_unit && unit == LengthUnit.Px then LengthUnit.None
  else unit

/-- The `NumberList` collection loop of `parse_svg_attribute_value`
(src/parser/parser.rs lines 410-424): push numbers, abort on the first
parse error. -/
def collectNumberList : List (Except ParseError ℚ) → Except ParseError (List ℚ)
  | [] => Except.ok []
  | Except.ok n :: rest => (collectNumberList rest).map (fun v => n :: v)
  | Except.error e :: _ => Except.error e

/-- The `LengthList` collection loop of `parse_svg_attribute_value`
(src/parser/parser.rs lines 428-441), including `prepare_length_unit`. -/
def collectLengthList (opt : ParseOptions) :
    List (Except ParseError (ℚ × LengthUnit)) → Except ParseError (List Length)
  | [] => Except.ok []
  | Except.ok (n, u) :: rest =>
    (collectLengthList opt rest).map (fun v => ⟨n, prepare_length_unit u opt⟩ :: v)
  | Except.error e :: _ => Except.error e

/-- Source: `parse_svg_attribute_value` (src/parser/parser.rs lines 371-476): run
the external typed parser on the span and either record the value on the
node, defer an IRI/FuncIRI into the links list, or resolve an entity
reference recursively. `fuel` bounds the entity recursion (unbounded in
Rust, where a cyclic entity chain diverges; exhaustion maps to `Panic`). -/
def parse_svg_attribute_value (ext : Externals) :
    Nat → Doc → Nat → AttributeId → String → Links → List (String × String) →
    ParseOptions → Except ParseError (Doc × Links)
  | 0, _, _, _, _, _, _, _ => Except.error ParseError.Panic
  | fuel + 1, doc, node, id, span, links, entitis, opt =>
    match doc.tag_id node with
    | none => Except.error ParseError.Panic
    | some tid =>
      match ext.fromSpan tid id span with
      | Except.error e =>
        if opt.skip_invalid_attributes then Except.ok (doc, links)
        else Except.error e
      | Except.ok av =>
        match av with
        | PAttributeValue.Str v =>
          Except.ok (doc.set_attribute node id (AttributeValue.Str v), links)
        | PAttributeValue.IRI link =>
          Except.ok (doc, links.append id link none node)
        | PAttributeValue.FuncIRI link =>
          Except.ok (doc, links.append id link none node)
        | PAttributeValue.FuncIRIWithFallback link fallback =>
          Except.ok (doc, links.append id link (some fallback) node)
        | PAttributeValue.Number v =>
          Except.ok (doc.set_attribute node id (AttributeValue.Number v), links)
        | PAttributeValue.NumberList l =>
          match collectNumberList l with
          | Except.error e => Except.error e
          | Except.ok vec =>
            if !vec.isEmpty then
              Except.ok (doc.set_attribute node id (AttributeValue.NumberList vec), links)
            else Except.ok (doc, links)
        | PAttributeValue.Length num unit =>
          Except.ok
            (doc.set_attribute node id
              (AttributeValue.Length ⟨num, prepare_length_unit unit opt⟩), links)
        | PAttributeValue.LengthList l =>
          match collectLengthList opt l with
          | Except.error e => Except.error e
          | Except.ok vec =>
            if !vec.isEmpty then
              Except.ok (doc.set_attribute node id (AttributeValue.LengthList vec), links)
            else Except.ok (doc, links)
        | PAttributeValue.Color c =>
          Except.ok (doc.set_attribute node id (AttributeValue.Color ⟨c.red, c.green, c.blue⟩), links)
        | PAttributeValue.PredefValue v =>
          Except.ok (doc.set_attribute node id (AttributeValue.PredefValue v), links)
        | PAttributeValue.EntityRef link =>
          match lookupEntity entitis link with
          | some linkValue =>
            parse_svg_attribute_value ext fuel doc node id linkValue links entitis opt
          | none =>
            Except.ok
              (doc.set_attribute node id (AttributeValue.Str ("&" ++ link ++ ";")), links)

mutual

/-- Source: `parse_style_attribute` (src/parser/parser.rs lines 515-541): tokenize
the style span through the external style tokenizer and process the
declarations; `fuel` bounds the entity recursion (unbounded in Rust, where
a cyclic entity chain diverges; exhaustion maps to `Panic`). -/
def parse_style_attribute (ext : Externals) :
    Nat → Doc → Nat → String → Links → List (String × String) → ParseOptions →
    Except ParseError (Doc × Links)
  | 0, _, _, _, _, _, _ => Except.error ParseError.Panic
  | fuel + 1, doc, node, span, links, entitis, opt =>
    styleTokenLoop ext fuel (ext.styleTokens span) doc node links entitis opt

/-- The `for token in style::Tokenizer` loop body of `parse_style_attribute`
(src/parser/parser.rs lines 522-538). -/
def styleTokenLoop (ext : Externals) (fuel : Nat) :
    List (Except ParseError StyleToken) → Doc → Nat → Links →
    List (String × String) → ParseOptions → Except ParseError (Doc × Links)
  | [], doc, _, links, _, _ => Except.ok (doc, links)
  | Except.error e :: _, _, _, _, _, _ => Except.error e
  | Except.ok t :: rest, doc, node, links, entitis, opt =>
    match t with
    | StyleToken.XmlAttribute name value =>
      let doc2 :=
        if opt.parse_unknown_attributes then
          doc.modifyNode node
            (fun nd => { nd with otherAttributes := (name, value) :: nd.otherAttributes })
        else doc
      styleTokenLoop ext fuel rest doc2 node links entitis opt
    | StyleToken.SvgAttribute id value =>
      match parse_svg_attribute_value ext (entitis.length + 1) doc node id value links entitis opt with
      | Except.error e => Except.error e
      | Except.ok (doc2, links2) => styleTokenLoop ext fuel rest doc2 node links2 entitis opt
    | StyleToken.EntityRef name =>
      match lookupEntity entitis name with
      | some value =>
        match parse_style_attribute ext fuel doc node value links entitis opt with
        | Except.error e => Except.error e
        | Except.ok (doc2, links2) => styleTokenLoop ext fuel rest doc2 node links2 entitis opt
      | none => styleTokenLoop ext fuel rest doc node links entitis opt

end

/-- Source: `parse_non_svg_attribute` (src/parser/parser.rs lines 478-504): a
foreign attribute whose value begins with `&` is looked up as an entity
reference; otherwise the raw value is stored. -/
def parse_non_svg_attribute (ext : Externals) (doc : Doc) (node : Nat)
    (name value : String) (postData : PostData) : Doc :=
  let newValue :=
    if value.startsWith "&" then
      match ext.consumeEntityRef value with
      | some link =>
        match lookupEntity postData.entitis link with
        | some linkValue => some linkValue
        | none => none
      | none => none
    else some value
  match newValue with
  | some v => doc.modifyNode node
      (fun nd => { nd with otherAttributes := (name, v) :: nd.otherAttributes })
  | none => doc

/-- The whitespace-splitting loop of the `class` attribute arm
(src/parser/parser.rs lines 345-361). -/
def splitClasses (s : String) : List String :=
  (s.split (fun c => c == ' ' || c == '\t' || c == '\n' || c == '\r')).filter
    (fun t => t ≠ "")

/-- Source: `parse_svg_attribute` (src/parser/parser.rs lines 314-369): route a
known-id attribute by its id; `id`, `style` and `class` are deferred,
transforms and paths go through their dedicated parsers, everything else
through `parse_svg_attribute_value`. -/
def parse_svg_attribute (ext : Externals) (doc : Doc) (node : Nat)
    (id : AttributeId) (value : String) (postData : PostData) (opt : ParseOptions) :
    Except ParseError (Doc × PostData) :=
  match id with
  | AttributeId.Id =>
    let doc2 := doc.modifyNode node (fun nd => { nd with id := value })
    let pd := { postData with
      links := { postData.links with
        elems_with_id := insertAssoc postData.links.elems_with_id value node } }
    Except.ok (doc2, pd)
  | AttributeId.Style =>
    Except.ok (doc, { postData with style_attrs := postData.style_attrs ++ [(node, value)] })
  | AttributeId.Transform =>
    match ext.transformFromSpan value with
    | Except.error e => Except.error e
    | Except.ok ts =>
      if !ts.is_default then
        Except.ok (doc.set_attribute node id (AttributeValue.Transform ts), postData)
      else Except.ok (doc, postData)
  | AttributeId.GradientTransform =>
    match ext.transformFromSpan value with
    | Except.error e => Except.error e
    | Except.ok ts =>
      if !ts.is_default then
        Except.ok (doc.set_attribute node id (AttributeValue.Transform ts), postData)
      else Except.ok (doc, postData)
  | AttributeId.PatternTransform =>
    match ext.transformFromSpan value with
    | Except.error e => Except.error e
    | Except.ok ts =>
      if !ts.is_default then
        Except.ok (doc.set_attribute node id (AttributeValue.Transform ts), postData)
      else Except.ok (doc, postData)
  | AttributeId.D =>
    match ext.pathFromSpan value with
    | Except.error e => Except.error e
    | Except.ok p =>
      Except.ok (doc.set_attribute node AttributeId.D (AttributeValue.Path p), postData)
  | AttributeId.Class =>
    let pd := { postData with
      class_attrs := postData.class_attrs ++ (splitClasses value).map (fun c => (node, c)) }
    Except.ok (doc, pd)
  | _ =>
    match parse_svg_attribute_value ext (postData.entitis.length + 1) doc node id value
        postData.links postData.entitis opt with
    | Except.error e => Except.error e
    | Except.ok (doc2, links2) =>
      Except.ok (doc2, { postData with links := links2 })

/-- Source: `Node::set_attribute_checked((id, node))` — set a Link-valued attribute
to another node (modelled from the spec §3: a Link attribute holds a handle
to its target; src/dom/node.rs is not among the provided sources and the
spec states no failure condition for this pipeline use, so it succeeds). -/
def Doc.set_attribute_checked (doc : Doc) (i : Nat) (aid : AttributeId) (target : Nat) :
    Except ParseError Doc :=
  Except.ok (doc.set_attribute i aid (AttributeValue.Link target))

/-- Whether some strict ancestor is a `mask`, `clip-path` or `marker`
element — the `flag` computation of `resolve_fallback`
(src/parser/parser.rs lines 607-611). -/
def Doc.hasMaskClipPathMarkerAncestor (doc : Doc) (i : Nat) : Bool :=
  doc.parentsAny
    (fun n => doc.is_tag_name n ElementId.Mask
      || doc.is_tag_name n ElementId.ClipPath
      || doc.is_tag_name n ElementId.Marker)
    doc.nodes.length i

/-- Source: `resolve_fallback` (src/parser/parser.rs lines 574-641): recovery for a
deferred link whose target id was not found. -/
def resolve_fallback (doc : Doc) (d : LinkData) : Except ParseError Doc :=
  match d.fallback with
  | some (PaintFallback.PredefValue v) =>
    Except.ok (doc.set_attribute d.node d.attr_id (AttributeValue.PredefValue v))
  | some (PaintFallback.Color c) =>
    Except.ok (doc.set_attribute d.node d.attr_id (AttributeValue.Color ⟨c.red, c.green, c.blue⟩))
  | none =>
    match d.attr_id with
    | AttributeId.Filter =>
      if doc.is_tag_name d.node ElementId.Use then
        Except.error (ParseError.BrokenFuncIri d.iri)
      else if doc.hasMaskClipPathMarkerAncestor d.node then
        Except.ok doc
      else
        Except.ok
          (doc.set_attribute d.node AttributeId.Visibility
            (AttributeValue.PredefValue ValueId.Hidden))
    | AttributeId.Fill =>
      Except.ok
        (doc.set_attribute d.node AttributeId.Fill (AttributeValue.PredefValue ValueId.None))
    | _ => Except.ok doc

/-- The loop body of `resolve_links` for one deferred entry
(src/parser/parser.rs lines 543-572). -/
def resolveLinkEntry (opt : ParseOptions) (ewid : List (String × Nat))
    (doc : Doc) (d : LinkData) : Except ParseError Doc :=
  match lookupAssoc ewid d.iri with
  | some node =>
    match d.fallback with
    | some _ =>
      if opt.skip_paint_fallback then doc.set_attribute_checked d.node d.attr_id node
      else Except.error (ParseError.UnsupportedPaintFallback d.iri)
    | none => doc.set_attribute_checked d.node d.attr_id node
  | none => resolve_fallback doc d

/-- Source: `resolve_links` (src/parser/parser.rs lines 543-572): process the
deferred entries in order, aborting at the first error. -/
def resolve_links (opt : ParseOptions) (links : Links) (doc : Doc) : Except ParseError Doc :=
  links.list.foldlM (fun doc d => resolveLinkEntry opt links.elems_with_id doc d) doc

/-- Source: `is_inside_style_elem` (src/parser/parser.rs lines 643-657): the node is
a `style` element whose `type` attribute, when present as a string, is
`text/css`. -/
def is_inside_style_elem (doc : Doc) (node : Nat) : Bool :=
  if doc.is_tag_name node ElementId.Style then
    match doc.get_attribute_value node AttributeId.Type with
    | some (AttributeValue.Str t) => t == "text/css"
    | _ => true
  else false

/-- Tag name as carried by an `ElementStart` token
(`svg::Name::Svg | svg::Name::Xml` of the external tokenizer). -/
inductive TokenName
  | Svg (eid : ElementId)
  | Xml (s : String)
deriving DecidableEq, Repr

/-- Attribute name as carried by an `Attribute` token. -/
inductive AttrTokenName
  | Svg (aid : AttributeId)
  | Xml (s : String)
deriving DecidableEq, Repr

/-- Source: `svg::ElementEnd` of the external tokenizer. The `Close` payload (the
closing tag's name) is ignored by the embedded code (`Close(_)`) and
dropped here. -/
inductive ElementEnd
  | Empty
  | Open
  | Close
deriving DecidableEq, Repr

/-- Source: `svg::Token` of the external tokenizer (spec §4.3/§6 token kinds).
Attribute values are raw spans, fed to the external value parsers. -/
inductive Token
  | ElementStart (name : TokenName)
  | Attribute (name : AttrTokenName) (value : String)
  | ElementEnd (e : ElementEnd)
  | Text (s : String)
  | Whitespaces (s : String)
  | Comment (s : String)
  | Declaration (version : String) (encoding : Option String) (standalone : Option String)
  | EntityDeclaration (name : String) (value : String)
  | ProcessingInstruction
deriving DecidableEq, Repr

/-- The mutable state threaded through the token pass of `parse_svg`:
the document, the `node`/`parent` cursors and the deferred `PostData`. -/
structure ParseState where
  doc : Doc
  node : Option Nat
  parent : Nat
  postData : PostData

/-- Source: `doc.children().nth(1).and_then(|n| n.children().svg().nth(0))` — the
structural svg check both of `process_token` (src/parser/parser.rs line
304) and of the pipeline end (line 133): take the root's second child, then
the first of its children whose tag is a known SVG element id
(`Children::svg`, src/dom/iterators.rs lines 16-35). -/
def secondChildFirstSvg (doc : Doc) : Option ElementId :=
  ((doc.childrenOf 0).get? 1).bind
    (fun n => ((doc.childrenOf n).filterMap (fun c => doc.tag_id c)).head?)

/-- The root-level svg check appended to every token step
(src/parser/parser.rs lines 300-309). -/
def rootSvgCheck (st : ParseState) : Except ParseError ParseState :=
  if st.doc.node_type st.parent == some NodeType.Root then
    match secondChildFirstSvg st.doc with
    | some id =>
      if id ≠ ElementId.Svg then Except.error ParseError.NoSvgElement
      else Except.ok st
    | none => Except.ok st
  else Except.ok st

/-- The `create_node!` macro of `process_token` (src/parser/parser.rs lines
181-187): create a node, record it as the current node and append it under
the current parent. -/
def createNodeStep (st : ParseState) (nt : NodeType) (text : String) : ParseState :=
  let (doc1, e) := st.doc.push (NodeData.mk0 nt none text)
  { st with doc := doc1.append st.parent e, node := some e }

/-- The markup test on an entity declaration's value,
`value.to_str().trim().starts_with("<")` (src/parser/parser.rs line 288):
whether the first non-whitespace character is `<`. Embedded on the
character list (trailing trimming cannot affect a starts-with test) so it
stays kernel-computable. -/
def trimmedValueIsMarkup (value : String) : Bool :=
  match value.data.dropWhile (fun c => c.isWhitespace) with
  | [] => false
  | c :: _ => c == '<'

/-- The `Declaration` string synthesis of `process_token`
(src/parser/parser.rs lines 268-284). -/
def declarationText (version : String) (encoding standalone : Option String) : String :=
  let s := "version=\"" ++ version ++ "\""
  let s := match encoding with
    | some enc => s ++ " encoding=\"" ++ enc ++ "\""
    | none => s
  match standalone with
  | some sa => s ++ " standalone=\"" ++ sa ++ "\""
  | none => s

/-- Source: `process_token` (src/parser/parser.rs lines 173-312): one step of the
tree-construction token pass, followed by the root-level svg check. -/
def process_token (ext : Externals) (opt : ParseOptions) (st : ParseState)
    (token : Token) : Except ParseError ParseState := do
  let st2 ← (match token with
    | Token.ElementStart name =>
      match name with
      | TokenName.Xml s =>
        if s = "" then Except.error ParseError.Panic
        else
          let (doc1, e) := st.doc.push (NodeData.mk0 NodeType.Element (some (TagName.Name s)) "")
          Except.ok { st with doc := doc1.append st.parent e, node := some e }
      | TokenName.Svg eid =>
        let (doc1, e) := st.doc.push (NodeData.mk0 NodeType.Element (some (TagName.Id eid)) "")
        Except.ok { st with doc := doc1.append st.parent e, node := some e }
    | Token.Attribute name value =>
      match st.node with
      | none => Except.error ParseError.Panic
      | some currNode =>
        match name with
        | AttrTokenName.Xml s =>
          if opt.parse_unknown_attributes then
            if st.doc.is_svg_element currNode then
              Except.ok { st with doc := parse_non_svg_attribute ext st.doc currNode s value st.postData }
            else
              Except.ok { st with doc := (st.doc.modifyNode currNode
                  (fun nd => { nd with otherAttributes := (s, value) :: nd.otherAttributes })) }
          else Except.ok st
        | AttrTokenName.Svg aid =>
          if st.doc.is_svg_element currNode then
            match parse_svg_attribute ext st.doc currNode aid value st.postData opt with
            | Except.error e => Except.error e
            | Except.ok (doc2, pd2) => Except.ok { st with doc := doc2, postData := pd2 }
          else Except.ok st
    | Token.ElementEnd e =>
      match e with
      | ElementEnd.Empty => Except.ok st
      | ElementEnd.Close =>
        if st.parent ≠ 0 then
          match (st.doc.getNode st.parent).bind (·.parent) with
          | some p => Except.ok { st with parent := p }
          | none => Except.error ParseError.Panic
        else Except.ok st
      | ElementEnd.Open =>
        match st.node with
        | some n => Except.ok { st with parent := n }
        | none => Except.ok st
    | Token.Text s =>
      if is_inside_style_elem st.doc st.parent then
        Except.ok { st with postData := { st.postData with css_list := st.postData.css_list ++ [s] } }
      else Except.ok (createNodeStep st NodeType.Text s)
    | Token.Whitespaces s =>
      match st.doc.tag_id st.parent with
      | some ElementId.Text => Except.ok (createNodeStep st NodeType.Text s)
      | some ElementId.Tspan => Except.ok (createNodeStep st NodeType.Text s)
      | some ElementId.Tref => Except.ok (createNodeStep st NodeType.Text s)
      | _ => Except.ok st
    | Token.Comment s =>
      if opt.parse_comments then Except.ok (createNodeStep st NodeType.Comment s)
      else Except.ok st
    | Token.Declaration version encoding standalone =>
      if opt.parse_declarations then
        Except.ok (createNodeStep st NodeType.Declaration (declarationText version encoding standalone))
      else Except.ok st
    | Token.EntityDeclaration name value =>
      if trimmedValueIsMarkup value then Except.error ParseError.UnsupportedEntity
      else
        Except.ok { st with postData :=
          { st.postData with entitis := insertEntity st.postData.entitis name value } }
    | Token.ProcessingInstruction => Except.ok st)
  rootSvgCheck st2

/-- The token loop of `parse_svg` (src/parser/parser.rs lines 122-126). -/
def processTokens (ext : Externals) (opt : ParseOptions) :
    ParseState → List Token → Except ParseError ParseState
  | st, [] => Except.ok st
  | st, t :: rest => do
    let st2 ← process_token ext opt st t
    processTokens ext opt st2 rest

/-- Source: `Document::drain(predicate)` (spec §4.1; src/dom/node.rs is not among
the provided sources): remove every descendant subtree whose root matches
the predicate. In the arena this filters matched handles out of every child
list, computed against the pre-drain document. -/
def Doc.drain (doc : Doc) (p : Doc → Nat → Bool) : Doc :=
  ⟨doc.nodes.map (fun nd => { nd with children := nd.children.filter (fun c => !p doc c) })⟩

/-- Modelled from the spec: `css::resolve_css` (src/parser/css.rs is not
among the provided sources). Spec §4.3 Phase 3 delegates to the external
CSS collaborator, which applies presentation attributes for the collected
stylesheets and class usages; with no stylesheet text and no class usages
it has nothing to match and succeeds leaving the tree unchanged. Only that
no-CSS case is exercised by the concrete inputs below, and it is modelled
as the identity. -/
def resolve_css (doc : Doc) (_postData : PostData) (_opt : ParseOptions) :
    Except ParseError Doc :=
  Except.ok doc

/-- Modelled from the spec: `text::prepare_text` (src/parser/text.rs is not
among the provided sources). Spec §4.3 Phase 6 delegates to the external
text normalizer, which merges/trims text runs; documents with no text nodes
are unaffected. Only such documents are exercised by the concrete inputs
below, and it is modelled as the identity. -/
def prepare_text (doc : Doc) : Doc :=
  doc

/-- The style-attribute resolution loop of `parse_svg`
(src/parser/parser.rs lines 160-164). -/
def resolveStyleAttrs (ext : Externals) (opt : ParseOptions)
    (entitis : List (String × String)) :
    List (Nat × String) → Doc → Links → Except ParseError (Doc × Links)
  | [], doc, links => Except.ok (doc, links)
  | (node, span) :: rest, doc, links =>
    match parse_style_attribute ext (entitis.length + 1) doc node span links entitis opt with
    | Except.error e => Except.error e
    | Except.ok (doc2, links2) => resolveStyleAttrs ext opt entitis rest doc2 links2

/-- The initial state of `parse_svg` (src/parser/parser.rs lines 98-120):
a fresh document, no current node, the root as current parent, empty
deferred data. -/
def initParseState : ParseState :=
  { doc := Doc.new, node := none, parent := 0,
    postData :=
      { css_list := [], links := { list := [], elems_with_id := [] },
        entitis := [], class_attrs := [], style_attrs := [] } }

/-- Source: `parse_svg` (src/parser/parser.rs lines 97-171): the whole pipeline —
token pass, empty-document and svg-root checks, structural pruning, CSS
resolution, style-attribute expansion, link resolution, text preparation. -/
def parse_svg (ext : Externals) (tokens : List Token) (opt : ParseOptions) :
    Except ParseError Doc := do
  let st ← processTokens ext opt initParseState tokens
  if !st.doc.has_children 0 then
    Except.error ParseError.EmptyDocument
  else do
    let _ ← (match secondChildFirstSvg st.doc with
      | some id =>
        if id ≠ ElementId.Svg then Except.error ParseError.NoSvgElement
        else Except.ok ()
      | none => Except.error ParseError.NoSvgElement)
    let doc := st.doc.drain (fun d n => d.is_tag_name n ElementId.Style)
    let doc :=
      if !opt.parse_unknown_elements then
        doc.drain (fun d n => d.node_type n == some NodeType.Element && (d.tag_id n).isNone)
      else doc
    let doc ←
      match resolve_css doc st.postData opt with
      | Except.error e => if opt.skip_invalid_css then Except.ok doc else Except.error e
      | Except.ok doc2 => Except.ok doc2
    let (doc, links) ← resolveStyleAttrs ext opt st.postData.entitis
      st.postData.style_attrs doc st.postData.links
    let doc ← resolve_links opt links doc
    Except.ok (prepare_text doc)

/-- The `LinkedNodes` iterator state (src/dom/iterators.rs lines 212-225):
a borrowed view of a node's weak-referrer vector plus a cursor. A
`WeakLink` is embedded as `Option Nat`: `upgrade()` on a live reference
yields the node handle, an expired one yields `none`. -/
structure LinkedNodes where
  data : List (Option Nat)
  idx : Nat
deriving DecidableEq, Repr

/-- Source: `LinkedNodes::next` (src/dom/iterators.rs lines 227-243): advance the
cursor; inside bounds, return the upgraded node or `none` when the weak
reference has expired; outside bounds, `none`. -/
def LinkedNodes.next (it : LinkedNodes) : Option Nat × LinkedNodes :=
  let i := it.idx
  let it2 := { it with idx := i + 1 }
  if h : i < it.data.length then
    match it.data.get ⟨i, h⟩ with
    | some n => (some n, it2)
    | none => (none, it2)
  else (none, it2)

/-- Driving a Rust iterator to completion (a `for` loop / `collect`):
repeatedly call `next`, stopping at the first `None`. `fuel` bounds the
loop; `data.length` steps always suffice. -/
def LinkedNodes.collect : Nat → LinkedNodes → List Nat
  | 0, _ => []
  | fuel + 1, it =>
    match it.next with
    | (some n, it2) => n :: LinkedNodes.collect fuel it2
    | (none, _) => []

/-- The longest prefix of live referrer entries, upgraded: what the
iteration over a weak-referrer list actually produces. -/
def livePrefix : List (Option Nat) → List Nat
  | [] => []
  | none :: _ => []
  | some n :: rest => n :: livePrefix rest

/-- A concrete instantiation of the external collaborators, used to
evaluate the embedded pipeline on the concrete documents below: it parses
the one attribute value those documents contain (`url(#missing)`, a
FuncIRI) and treats any other value as a string. -/
def exampleExternals : Externals :=
  { fromSpan := fun _ _ span =>
      if span = "url(#missing)" then Except.ok (PAttributeValue.FuncIRI "missing")
      else Except.ok (PAttributeValue.Str span)
    transformFromSpan := fun _ => Except.ok ⟨1, 0, 0, 1, 0, 0⟩
    pathFromSpan := fun s => Except.ok ⟨s⟩
    styleTokens := fun _ => []
    consumeEntityRef := fun _ => none }

/-- The token stream of `<svg/>` (spec §4.3 token kinds; tokenization
itself is the external collaborator of §6). -/
def minimalSvgTokens : List Token :=
  [Token.ElementStart (TokenName.Svg ElementId.Svg),
   Token.ElementEnd ElementEnd.Empty]

/-- The token stream of `<!--comment--><svg/>` — the input of the
`Document::svg_element` doc example (src/dom/document.rs lines 133-140),
which unwraps `Document::from_str` on it. -/
def docExampleTokens : List Token :=
  [Token.Comment "comment",
   Token.ElementStart (TokenName.Svg ElementId.Svg),
   Token.ElementEnd ElementEnd.Empty]

/-- The token stream of `<rect/><g><svg/></g>`: the first top-level element
is `rect`, not `svg`. -/
def rectFirstTokens : List Token :=
  [Token.ElementStart (TokenName.Svg ElementId.Rect),
   Token.ElementEnd ElementEnd.Empty,
   Token.ElementStart (TokenName.Svg ElementId.G),
   Token.ElementEnd ElementEnd.Open,
   Token.ElementStart (TokenName.Svg ElementId.Svg),
   Token.ElementEnd ElementEnd.Empty,
   Token.ElementEnd ElementEnd.Close]

/-- The token stream of `<svg><rect fill="url(#missing)"/></svg>`. -/
def unresolvedFillTokens : List Token :=
  [Token.ElementStart (TokenName.Svg ElementId.Svg),
   Token.ElementEnd ElementEnd.Open,
   Token.ElementStart (TokenName.Svg ElementId.Rect),
   Token.Attribute (AttrTokenName.Svg AttributeId.Fill) "url(#missing)",
   Token.ElementEnd ElementEnd.Empty,
   Token.ElementEnd ElementEnd.Close]

/-- The first known-SVG-element child of the root of a successfully parsed
document — what the spec's svg-root postcondition is about. -/
def rootFirstElementId (r : Except ParseError Doc) : Option ElementId :=
  match r with
  | Except.ok d => ((d.childrenOf 0).filterMap (fun c => d.tag_id c)).head?
  | Except.error _ => none

/-- A two-node document: the root with a single `rect` element child. -/
def rectDoc : Doc :=
  ⟨[{ NodeData.mk0 NodeType.Root none "" with children := [1] },
    { NodeData.mk0 NodeType.Element (some (TagName.Id ElementId.Rect)) "" with parent := some 0 }]⟩

/-- A two-node document: the root with a single `use` element child. -/
def useDoc : Doc :=
  ⟨[{ NodeData.mk0 NodeType.Root none "" with children := [1] },
    { NodeData.mk0 NodeType.Element (some (TagName.Id ElementId.Use)) "" with parent := some 0 }]⟩

/-- A three-node document: the root holding a `rect` (handle 1) and a
`linearGradient` with id `g` (handle 2). -/
def gradientDoc : Doc :=
  ⟨[{ NodeData.mk0 NodeType.Root none "" with children := [1, 2] },
    { NodeData.mk0 NodeType.Element (some (TagName.Id ElementId.Rect)) "" with parent := some 0 },
    { NodeData.mk0 NodeType.Element (some (TagName.Id ElementId.LinearGradient)) "" with
        parent := some 0, id := "g" }]⟩

/-- External collaborators whose value parser returns an empty number list
for every span, exercising the empty-list arm of
`parse_svg_attribute_value`. -/
def emptyNumberListExternals : Externals :=
  { fromSpan := fun _ _ _ => Except.ok (PAttributeValue.NumberList [])
    transformFromSpan := fun _ => Except.ok ⟨1, 0, 0, 1, 0, 0⟩
    pathFromSpan := fun s => Except.ok ⟨s⟩
    styleTokens := fun _ => []
    consumeEntityRef := fun _ => none }

/-- The root-level svg check's passing condition, as a function of the
document and the current parent only (`process_token`,
src/parser/parser.rs lines 300-309). -/
def rootCheckPasses (doc : Doc) (parent : Nat) : Bool :=
  if doc.node_type parent == some NodeType.Root then
    match secondChildFirstSvg doc with
    | some id => id == ElementId.Svg
    | none => true
  else true

theorem findAttr_insertAttr_self (l : List Attribute) (aid : AttributeId) (v : AttributeValue) :
    findAttr (insertAttr l aid v) aid = some ⟨aid, v, true⟩ := by
  induction l with
  | nil => simp [insertAttr, findAttr]
  | cons a rest ih =>
    by_cases h : a.id = aid
    · simp [insertAttr, h, findAttr]
    · simp [insertAttr, h, findAttr, ih]

theorem findAttr_insertAttr_ne (l : List Attribute) (aid bid : AttributeId)
    (v : AttributeValue) (h : bid ≠ aid) :
    findAttr (insertAttr l aid v) bid = findAttr l bid := by
  induction l with
  | nil =>
    simp only [insertAttr, findAttr]
    rw [if_neg (fun he => h he.symm)]
  | cons a rest ih =>
    simp only [insertAttr]
    by_cases hc : a.id = aid
    · rw [if_pos hc]
      simp only [findAttr]
      rw [if_neg (fun he => h he.symm), if_neg (fun he => h (hc ▸ he).symm)]
    · rw [if_neg hc]
      simp only [findAttr, ih]

theorem list_get?_set_self {α : Type} (l : List α) (i : Nat) (a : α) (h : i < l.length) :
    (l.set i a).get? i = some a := by
  induction l generalizing i with
  | nil => simp at h
  | cons x xs ih =>
    cases i with
    | zero => rfl
    | succ n => exact ih n (Nat.lt_of_succ_lt_succ h)

theorem lt_length_of_getNode_eq_some {doc : Doc} {i : Nat} {nd : NodeData}
    (h : doc.getNode i = some nd) : i < doc.nodes.length := by
  by_contra hc
  push_neg at hc
  rw [Doc.getNode, List.get?_eq_none.2 hc] at h
  cases h

theorem getNode_set_attribute_self (doc : Doc) (i : Nat) (aid : AttributeId)
    (v : AttributeValue) (nd : NodeData) (h : doc.getNode i = some nd) :
    (doc.set_attribute i aid v).getNode i
      = some { nd with attributes := insertAttr nd.attributes aid v } := by
  unfold Doc.set_attribute Doc.modifyNode
  rw [h]
  unfold Doc.setNode Doc.getNode
  exact list_get?_set_self doc.nodes i _ (lt_length_of_getNode_eq_some h)

theorem get_attribute_value_set_self (doc : Doc) (i : Nat) (aid : AttributeId)
    (v : AttributeValue) (h : i < doc.nodes.length) :
    (doc.set_attribute i aid v).get_attribute_value i aid = some v := by
  obtain ⟨nd, hnd⟩ : ∃ nd, doc.getNode i = some nd := by
    cases hg : doc.getNode i with
    | none =>
      rw [Doc.getNode, List.get?_eq_none] at hg
      omega
    | some nd => exact ⟨nd, rfl⟩
  unfold Doc.get_attribute_value
  rw [getNode_set_attribute_self doc i aid v nd hnd]
  simp [findAttr_insertAttr_self]

theorem get_attribute_value_set_ne (doc : Doc) (i : Nat) (aid bid : AttributeId)
    (v : AttributeValue) (h : bid ≠ aid) :
    (doc.set_attribute i aid v).get_attribute_value i bid
      = doc.get_attribute_value i bid := by
  cases hg : doc.getNode i with
  | none =>
    unfold Doc.set_attribute Doc.modifyNode
    rw [hg]
  | some nd =>
    have h1 := getNode_set_attribute_self doc i aid v nd hg
    unfold Doc.get_attribute_value
    rw [h1, hg]
    simp [findAttr_insertAttr_ne _ _ _ _ h]

theorem rootSvgCheck_of_passes (st : ParseState)
    (h : rootCheckPasses st.doc st.parent = true) :
    rootSvgCheck st = Except.ok st := by
  unfold rootSvgCheck
  unfold rootCheckPasses at h
  split at h
  · rename_i hcond
    rw [if_pos hcond]
    cases hs : secondChildFirstSvg st.doc with
    | none => simp
    | some id =>
      rw [hs] at h
      have hid : id = ElementId.Svg := by simpa using h
      simp [hid]
  · rename_i hcond
    rw [if_neg hcond]

theorem collect_eq_livePrefix_aux (data : List (Option Nat)) :
    ∀ fuel i, data.length - i ≤ fuel →
      LinkedNodes.collect fuel ⟨data, i⟩ = livePrefix (data.drop i) := by
  intro fuel
  induction fuel with
  | zero =>
    intro i h
    have hle : data.length ≤ i := by omega
    rw [List.drop_eq_nil_of_le hle]
    rfl
  | succ fuel ih =>
    intro i h
    by_cases hi : i < data.length
    · have hdrop : data.drop i = data.get ⟨i, hi⟩ :: data.drop (i + 1) :=
        List.drop_eq_get_cons hi
      cases hget : data.get ⟨i, hi⟩ with
      | none =>
        rw [hdrop, hget]
        simp only [LinkedNodes.collect, LinkedNodes.next]
        rw [dif_pos hi, hget]
        rfl
      | some n =>
        rw [hdrop, hget]
        simp only [LinkedNodes.collect, LinkedNodes.next]
        rw [dif_pos hi, hget]
        simp only [livePrefix]
        have := ih (i + 1) (by omega)
        rw [this]
    · have hle : data.length ≤ i := Nat.le_of_not_lt hi
      rw [List.drop_eq_nil_of_le hle]
      simp only [LinkedNodes.collect, LinkedNodes.next]
      rw [dif_neg hi]
      rfl

/-- C3 (counterexample): iterating `LinkedNodes` over the weak-referrer
list `[expired, live 5]` yields `[]`, not the list `[5]` of nodes whose
weak references are alive — `next` returns `None` at the expired entry,
which terminates a Rust iteration instead of skipping it. -/
theorem c3_counterexample_expired_entry_stops_walk :
    LinkedNodes.collect 2 ⟨[none, some 5], 0⟩ ≠ ([none, some 5].filterMap id) := by
  decide

/-- C3 (amended): iterating `LinkedNodes` over a node's weak referrer list
yields exactly the upgraded nodes of the longest prefix of live entries;
the walk terminates at the first expired entry (which is skipped silently
in the sense that no error is raised and nothing is eagerly removed), and
later entries are not visited. -/
theorem c3_linked_nodes_iteration_is_live_prefix (data : List (Option Nat)) :
    LinkedNodes.collect data.length ⟨data, 0⟩ = livePrefix data := by
  simpa using collect_eq_livePrefix_aux data data.length 0 (by omega)

/-- C4 (counterexample): `PRESENTATION_ATTRIBUTES` holds 59 pairwise
distinct attribute ids, not 57, so `is_presentation` returns `true` for
exactly 59 ids, refuting the claimed set size. -/
theorem c4_counterexample_presentation_list_has_59_ids :
    PRESENTATION_ATTRIBUTES.Nodup ∧ PRESENTATION_ATTRIBUTES.length ≠ 57 := by
  exact ⟨by decide, by decide⟩

/-- C4 (amended): `is_presentation` returns `true` for exactly the fixed
set of 59 presentation-property attribute ids in `PRESENTATION_ATTRIBUTES`
and `false` for every other attribute id. -/
theorem c4_is_presentation_partitions_59_ids :
    PRESENTATION_ATTRIBUTES.length = 59
    ∧ PRESENTATION_ATTRIBUTES.Nodup
    ∧ ∀ a : Attribute,
        (Attribute.is_presentation a = true ↔ a.id ∈ PRESENTATION_ATTRIBUTES) := by
  refine ⟨rfl, by decide, ?_⟩
  intro a
  simp [Attribute.is_presentation, List.any_eq_true, beq_iff_eq]

/-- Witness for C4's amended theorem at `fill`. -/
theorem c4_partition_witness :
    Attribute.is_presentation ⟨AttributeId.Fill, AttributeValue.PredefValue ValueId.None, true⟩
      = true :=
  (c4_is_presentation_partitions_59_ids.2.2
    ⟨AttributeId.Fill, AttributeValue.PredefValue ValueId.None, true⟩).mpr (by decide)

/-- C9: `default_value` yields `nonzero` for `fill-rule`, the number `1.0`
for `opacity` and the unitless length `1.0` for `stroke-width`; and for
every attribute id the table maps to nothing, `check_is_default` is false
at every attribute value. -/
theorem c9_default_value_table :
    AttributeValue.default_value AttributeId.FillRule
        = some (AttributeValue.PredefValue ValueId.Nonzero)
    ∧ AttributeValue.default_value AttributeId.Opacity = some (AttributeValue.Number 1)
    ∧ AttributeValue.default_value AttributeId.StrokeWidth
        = some (AttributeValue.Length ⟨1, LengthUnit.None⟩)
    ∧ ∀ a : Attribute, AttributeValue.default_value a.id = none →
        a.check_is_default = false := by
  refine ⟨rfl, rfl, rfl, ?_⟩
  intro a h
  simp [Attribute.check_is_default, h]

/-- Witness for C9 at the defaultless id `d`. -/
theorem c9_witness :
    AttributeValue.default_value AttributeId.D = none
    ∧ Attribute.check_is_default ⟨AttributeId.D, AttributeValue.Number 0, true⟩ = false :=
  ⟨rfl, c9_default_value_table.2.2.2 ⟨AttributeId.D, AttributeValue.Number 0, true⟩ rfl⟩

/-- C10: when the external value parser yields an empty number list or an
empty length list, `parse_svg_attribute_value` succeeds while leaving the
document (in particular the node's attribute collection) and the deferred
links entirely unchanged. -/
theorem c10_empty_list_values_set_nothing (ext : Externals) (fuel : Nat) (doc : Doc)
    (node : Nat) (id : AttributeId) (span : String) (links : Links)
    (entitis : List (String × String)) (opt : ParseOptions) (tid : ElementId)
    (ht : doc.tag_id node = some tid)
    (hv : ext.fromSpan tid id span = Except.ok (PAttributeValue.NumberList [])
        ∨ ext.fromSpan tid id span = Except.ok (PAttributeValue.LengthList [])) :
    parse_svg_attribute_value ext (fuel + 1) doc node id span links entitis opt
      = Except.ok (doc, links) := by
  cases hv with
  | inl h => simp [parse_svg_attribute_value, ht, h, collectNumberList]
  | inr h => simp [parse_svg_attribute_value, ht, h, collectLengthList]

/-- Witness for C10: an empty `stroke-dasharray` number list on a `rect`
leaves the document untouched. -/
theorem c10_witness :
    rectDoc.tag_id 1 = some ElementId.Rect
    ∧ emptyNumberListExternals.fromSpan ElementId.Rect AttributeId.StrokeDasharray ""
        = Except.ok (PAttributeValue.NumberList [])
    ∧ parse_svg_attribute_value emptyNumberListExternals 1 rectDoc 1
        AttributeId.StrokeDasharray "" { list := [], elems_with_id := [] } []
        ParseOptions.default
        = Except.ok (rectDoc, { list := [], elems_with_id := [] }) :=
  ⟨rfl, rfl,
    c10_empty_list_values_set_nothing emptyNumberListExternals 0 rectDoc 1
      AttributeId.StrokeDasharray "" { list := [], elems_with_id := [] } []
      ParseOptions.default ElementId.Rect rfl (Or.inl rfl)⟩

/-- C5: for a deferred `filter` link whose target id is not found and that
has no fallback: on a `use` element resolution fails hard with
`BrokenFuncIri`; otherwise, under a `mask`/`clip-path`/`marker` ancestor
the document is returned unchanged (so the node ends with no `filter`
attribute and no `visibility` change); otherwise the node's `visibility`
is set to `hidden` while its `filter` attribute stays as it was (absent). -/
theorem c5_unresolved_filter_no_fallback (opt : ParseOptions)
    (ewid : List (String × Nat)) (doc : Doc) (d : LinkData)
    (hl : lookupAssoc ewid d.iri = none)
    (hf : d.fallback = none)
    (ha : d.attr_id = AttributeId.Filter) :
    (doc.is_tag_name d.node ElementId.Use = true →
      resolveLinkEntry opt ewid doc d = Except.error (ParseError.BrokenFuncIri d.iri))
    ∧ (doc.is_tag_name d.node ElementId.Use = false →
        doc.hasMaskClipPathMarkerAncestor d.node = true →
        resolveLinkEntry opt ewid doc d = Except.ok doc)
    ∧ (doc.is_tag_name d.node ElementId.Use = false →
        doc.hasMaskClipPathMarkerAncestor d.node = false →
        d.node < doc.nodes.length →
        ∃ doc2, resolveLinkEntry opt ewid doc d = Except.ok doc2
          ∧ doc2.get_attribute_value d.node AttributeId.Visibility
              = some (AttributeValue.PredefValue ValueId.Hidden)
          ∧ doc2.get_attribute_value d.node AttributeId.Filter
              = doc.get_attribute_value d.node AttributeId.Filter) := by
  have hbase : resolveLinkEntry opt ewid doc d = resolve_fallback doc d := by
    unfold resolveLinkEntry
    rw [hl]
  refine ⟨?_, ?_, ?_⟩
  · intro hu
    rw [hbase]
    simp [resolve_fallback, hf, ha, hu]
  · intro hu hanc
    rw [hbase]
    simp [resolve_fallback, hf, ha, hu, hanc]
  · intro hu hanc hlt
    refine ⟨doc.set_attribute d.node AttributeId.Visibility
      (AttributeValue.PredefValue ValueId.Hidden), ?_, ?_, ?_⟩
    · rw [hbase]
      simp [resolve_fallback, hf, ha, hu, hanc]
    · exact get_attribute_value_set_self doc d.node _ _ hlt
    · exact get_attribute_value_set_ne doc d.node _ _ _ (by decide)

/-- Witness for C5: an unresolved `filter` on a `use` element is a hard
error. -/
theorem c5_witness :
    resolveLinkEntry ParseOptions.default [] useDoc ⟨AttributeId.Filter, "x", none, 1⟩
      = Except.error (ParseError.BrokenFuncIri "x") :=
  (c5_unresolved_filter_no_fallback ParseOptions.default [] useDoc
    ⟨AttributeId.Filter, "x", none, 1⟩ rfl rfl rfl).1 (by decide)

/-- C6: for a deferred link whose target id resolves and that carries a
paint fallback: by default resolution fails with
`UnsupportedPaintFallback`; with `skip_paint_fallback` on, the attribute
becomes a `Link` to the resolved node and the fallback is discarded. -/
theorem c6_resolved_target_with_fallback (opt : ParseOptions)
    (ewid : List (String × Nat)) (doc : Doc) (d : LinkData) (target : Nat)
    (hl : lookupAssoc ewid d.iri = some target)
    (hf : d.fallback.isSome = true)
    (hv : d.node < doc.nodes.length) :
    (opt.skip_paint_fallback = false →
      resolveLinkEntry opt ewid doc d
        = Except.error (ParseError.UnsupportedPaintFallback d.iri))
    ∧ (opt.skip_paint_fallback = true →
        ∃ doc2, resolveLinkEntry opt ewid doc d = Except.ok doc2
          ∧ doc2.get_attribute_value d.node d.attr_id
              = some (AttributeValue.Link target)) := by
  obtain ⟨fb, hfb⟩ := Option.isSome_iff_exists.mp hf
  constructor
  · intro hskip
    simp [resolveLinkEntry, hl, hfb, hskip]
  · intro hskip
    refine ⟨doc.set_attribute d.node d.attr_id (AttributeValue.Link target), ?_, ?_⟩
    · simp [resolveLinkEntry, hl, hfb, hskip, Doc.set_attribute_checked]
    · exact get_attribute_value_set_self doc d.node _ _ hv

/-- Witness for C6: a `fill` FuncIRI with fallback whose target `g`
resolves — error by default, resolved `Link` with the option on. -/
theorem c6_witness :
    resolveLinkEntry ParseOptions.default [("g", 2)] gradientDoc
        ⟨AttributeId.Fill, "g", some (PaintFallback.PredefValue ValueId.None), 1⟩
      = Except.error (ParseError.UnsupportedPaintFallback "g")
    ∧ ∃ doc2,
        resolveLinkEntry { ParseOptions.default with skip_paint_fallback := true }
            [("g", 2)] gradientDoc
            ⟨AttributeId.Fill, "g", some (PaintFallback.PredefValue ValueId.None), 1⟩
          = Except.ok doc2
        ∧ doc2.get_attribute_value 1 AttributeId.Fill = some (AttributeValue.Link 2) :=
  ⟨(c6_resolved_target_with_fallback ParseOptions.default [("g", 2)] gradientDoc
      ⟨AttributeId.Fill, "g", some (PaintFallback.PredefValue ValueId.None), 1⟩ 2
      (by decide) rfl (by decide)).1 rfl,
   (c6_resolved_target_with_fallback { ParseOptions.default with skip_paint_fallback := true }
      [("g", 2)] gradientDoc
      ⟨AttributeId.Fill, "g", some (PaintFallback.PredefValue ValueId.None), 1⟩ 2
      (by decide) rfl (by decide)).2 rfl⟩

/-- C8: an entity declaration whose value's trimmed text begins with `<`
makes `process_token` fail immediately with `UnsupportedEntity` — and the
token loop therefore aborts before processing any later token — while any
other entity declaration records the (name, value) pair in the entity
table, leaving document, cursors and the rest of the state unchanged. -/
theorem c8_entity_declarations (ext : Externals) (opt : ParseOptions)
    (st : ParseState) (name value : String) :
    (trimmedValueIsMarkup value = true →
      process_token ext opt st (Token.EntityDeclaration name value)
          = Except.error ParseError.UnsupportedEntity
      ∧ ∀ rest, processTokens ext opt st (Token.EntityDeclaration name value :: rest)
          = Except.error ParseError.UnsupportedEntity)
    ∧ (trimmedValueIsMarkup value = false →
        rootCheckPasses st.doc st.parent = true →
        process_token ext opt st (Token.EntityDeclaration name value)
          = Except.ok { st with postData :=
              { st.postData with entitis := insertEntity st.postData.entitis name value } }) := by
  constructor
  · intro hlt
    have h1 : process_token ext opt st (Token.EntityDeclaration name value)
        = Except.error ParseError.UnsupportedEntity := by
      simp only [process_token, hlt, if_true]
      rfl
    refine ⟨h1, fun rest => ?_⟩
    simp only [processTokens, h1]
    rfl
  · intro hlt hpass
    have h2 := rootSvgCheck_of_passes
      { st with postData :=
          { st.postData with entitis := insertEntity st.postData.entitis name value } } hpass
    simp [process_token, hlt]
    exact h2

/-- Witness for C8: `<!ENTITY bad "<x/>">` is rejected, `<!ENTITY r "red">`
is recorded, both at the initial parser state. -/
theorem c8_witness :
    process_token exampleExternals ParseOptions.default initParseState
        (Token.EntityDeclaration "bad" "<x/>")
      = Except.error ParseError.UnsupportedEntity
    ∧ processTokens exampleExternals ParseOptions.default initParseState
        [Token.EntityDeclaration "bad" "<x/>",
         Token.ElementStart (TokenName.Svg ElementId.Svg)]
      = Except.error ParseError.UnsupportedEntity
    ∧ process_token exampleExternals ParseOptions.default initParseState
        (Token.EntityDeclaration "r" "red")
      = Except.ok { initParseState with postData :=
          { initParseState.postData with
              entitis := insertEntity initParseState.postData.entitis "r" "red" } } :=
  ⟨((c8_entity_declarations exampleExternals ParseOptions.default initParseState
      "bad" "<x/>").1 (by decide)).1,
   ((c8_entity_declarations exampleExternals ParseOptions.default initParseState
      "bad" "<x/>").1 (by decide)).2 [Token.ElementStart (TokenName.Svg ElementId.Svg)],
   (c8_entity_declarations exampleExternals ParseOptions.default initParseState
      "r" "red").2 (by decide) (by decide)⟩

/-- C1: evaluation of the pipeline at the claim's input. Parsing the
minimal valid document `<svg/>` does NOT succeed: the svg-root check of
`parse_svg` inspects `doc.children().nth(1)` — the root's second child —
and the element children below it, so a one-element document reaches the
`None` arm and aborts with `NoSvgElement`, and no document exists to be
serialized and round-tripped. The second conjunct evaluates the input of
the `Document::svg_element` doc example (src/dom/document.rs lines
133-140), which unwraps `Document::from_str("<!--comment--><svg/>")`; it
fails the same way, so the code contradicts its own documentation test. -/
theorem c1_minimal_svg_document_is_rejected :
    parse_svg exampleExternals minimalSvgTokens ParseOptions.default
      = Except.error ParseError.NoSvgElement
    ∧ parse_svg exampleExternals docExampleTokens ParseOptions.default
      = Except.error ParseError.NoSvgElement := ⟨rfl, rfl⟩

/-- C2: evaluation of the pipeline against the claimed svg-root rule. The
document `<rect/><g><svg/></g>`, whose first top-level element is `rect`,
parses successfully (first two conjuncts) because the structural check
looks at the second root child's first element child instead of the first
top-level element — refuting the claim that such input fails with
`NoSvgElement`. The third conjunct confirms the claim's other half: a root
with no children fails with `EmptyDocument`. -/
theorem c2_rect_first_document_is_accepted :
    (parse_svg exampleExternals rectFirstTokens ParseOptions.default).isOk = true
    ∧ rootFirstElementId (parse_svg exampleExternals rectFirstTokens ParseOptions.default)
        = some ElementId.Rect
    ∧ parse_svg exampleExternals [] ParseOptions.default
        = Except.error ParseError.EmptyDocument := ⟨rfl, rfl, rfl⟩

/-- C7: evaluation at the claim's input. Parsing
`<svg><rect fill="url(#missing)"/></svg>` does NOT succeed: the mutated
svg-root check aborts the whole pipeline with `NoSvgElement` before link
resolution, so the rect never receives `fill = PredefValue(None)` (first
conjunct). The remaining conjuncts evaluate the claim's general rule in
isolation: `resolve_fallback` on a deferred `fill` entry with no target
and no fallback does set the node's `fill` to the predefined `none`. -/
theorem c7_unresolved_fill_document_is_rejected :
    parse_svg exampleExternals unresolvedFillTokens ParseOptions.default
      = Except.error ParseError.NoSvgElement
    ∧ resolve_fallback rectDoc ⟨AttributeId.Fill, "missing", none, 1⟩
        = Except.ok (rectDoc.set_attribute 1 AttributeId.Fill
            (AttributeValue.PredefValue ValueId.None))
    ∧ (rectDoc.set_attribute 1 AttributeId.Fill
          (AttributeValue.PredefValue ValueId.None)).get_attribute_value 1 AttributeId.Fill
        = some (AttributeValue.PredefValue ValueId.None) := ⟨rfl, rfl, rfl⟩

end Svgdom
